import Mathlib

/-!
Verification of the gzset repository's two CI benchmark scripts,
`.github/scripts/bench_summary.py` (the Estimate Collector) and
`.github/scripts/check_pop.py` (the Baseline Comparator), against their
natural-language specification.

The scripts are shallowly embedded: Python floats are modelled as exact
rationals (`ℚ`), the `target/criterion` directory tree as a list of files
(path segments plus the parse outcome of the file's JSON content), and
process exit / printed output as explicit result values.  Python's
`str.format` fixed-point (`:.2f`) and general (`:.3g`) renderings are
modelled over `ℚ` with round-half-to-even, the IEEE-754 rounding Python
uses at the decimal level.
-/

namespace Gzset

/-! ## Decimal rendering helpers (embedding of Python format specs) -/

/-- Round a rational to the nearest integer, ties to even (the rounding used by
Python's `format` when it shortens a value to a fixed number of decimals). -/
def roundHalfEven (x : ℚ) : ℤ :=
  if x - ⌊x⌋ < 1/2 then ⌊x⌋
  else if 1/2 < x - ⌊x⌋ then ⌊x⌋ + 1
  else if ⌊x⌋ % 2 = 0 then ⌊x⌋ else ⌊x⌋ + 1

/-- Left-pad a digit string with zeros to length `p`. -/
def padZeros (p : ℕ) (s : String) : String :=
  String.mk (List.replicate (p - s.length) '0') ++ s

/-- Drop trailing zero characters of a digit string. -/
def stripZeros (s : String) : String :=
  String.mk (s.data.reverse.dropWhile (fun c => c = '0')).reverse

/-- Fixed-point rendering of a nonnegative rational with `p` decimal places,
as Python's format spec `.pf` renders a nonnegative float. -/
def fmtFixedNN (p : ℕ) (x : ℚ) : String :=
  let n := (roundHalfEven (x * 10 ^ p)).toNat
  if p = 0 then toString n
  else toString (n / 10 ^ p) ++ "." ++ padZeros p (toString (n % 10 ^ p))

/-- Fixed-point rendering of a rational with `p` decimal places, as Python's
format spec `.pf` (f-strings `f"{x:.1f}"`, `f"{x:.2f}"` of the scripts). -/
def fmtFixed (p : ℕ) (x : ℚ) : String :=
  if x < 0 then "-" ++ fmtFixedNN p (-x) else fmtFixedNN p x

/-- The decimal exponent of a positive rational: the unique `e` with
`10 ^ e ≤ q < 10 ^ (e + 1)`. -/
def floorLog10 (q : ℚ) : ℤ :=
  if 1 ≤ q then ((Nat.log 10 ⌊q⌋.toNat : ℕ) : ℤ)
  else
    let k : ℕ := Nat.log 10 ⌊1/q⌋.toNat
    if (10:ℚ) ^ (-(k:ℤ)) ≤ q then -(k:ℤ) else -(k:ℤ) - 1

/-- Round a positive rational to three significant decimal digits: the result
`(n, e)` has `n ∈ [100, 999]` and represents `n * 10 ^ (e - 2)`. -/
def sigRound3 (x : ℚ) : ℤ × ℤ :=
  let e := floorLog10 x
  let n := roundHalfEven (x * (10:ℚ) ^ ((2:ℤ) - e))
  if n = 1000 then (100, e + 1) else (n, e)

/-- General-format rendering of a nonnegative rational with three significant
digits, as Python's format spec `.3g` renders a nonnegative float: fixed
notation when the decimal exponent is in `[-4, 3)`, scientific notation
otherwise, trailing zeros stripped in both. -/
def fmtG3NN (x : ℚ) : String :=
  if x = 0 then "0"
  else
    let p := sigRound3 x
    let n := p.1
    let e := p.2
    let ds := toString n.toNat
    if -4 ≤ e ∧ e < 3 then
      if 2 ≤ e then toString (n.toNat * 10 ^ (e - 2).toNat)
      else if 0 ≤ e then
        let ip := n.toNat / 10 ^ (2 - e).toNat
        let fp := n.toNat % 10 ^ (2 - e).toNat
        let fs := stripZeros (padZeros (2 - e).toNat (toString fp))
        toString ip ++ (if fs = "" then "" else "." ++ fs)
      else
        "0." ++ String.mk (List.replicate (-e - 1).toNat '0') ++ stripZeros ds
    else
      let mant := stripZeros (ds.drop 1)
      ds.take 1 ++ (if mant = "" then "" else "." ++ mant) ++ "e" ++
        (if 0 ≤ e then "+" else "-") ++ padZeros 2 (toString e.natAbs)

/-- General-format rendering of a rational with three significant digits,
as Python's format spec `.3g` (the `f"{base:.3g}"` of `check_pop.py`). -/
def fmtG3 (x : ℚ) : String :=
  if x < 0 then "-" ++ fmtG3NN (-x) else fmtG3NN x

/-- Python's `"/".join`, over a list of path segments. -/
def joinSlash : List String → String
  | [] => ""
  | [x] => x
  | x :: xs => x ++ "/" ++ joinSlash xs

/-- Python's `"\n".join`, over the list of output lines built by
`bench_summary.main`. -/
def joinLines : List String → String
  | [] => ""
  | [x] => x
  | x :: xs => x ++ "\n" ++ joinLines xs

/-! ## Estimate Collector (`bench_summary.py`) -/

/-- What the Collector sees when it reads one `estimates.json` file: either the
`mean.point_estimate` and `std_dev.point_estimate` fields (nanoseconds), or a
read or parse failure (`OSError` / `json.JSONDecodeError`), the two exception
classes `collect_estimates` catches. -/
inductive CContent
  | ok (mean std_dev : ℚ)
  | bad
deriving DecidableEq

/-- One file under `target/criterion` as the Collector sees it: its path
relative to that root, split into segments, and its content. -/
structure CFile where
  rel : List String
  content : CContent
deriving DecidableEq

/-- The `target/criterion` tree: whether the directory exists, and the files
below it in traversal (`rglob`) order. -/
structure CTree where
  dirExists : Bool
  files : List CFile
deriving DecidableEq

/-- `bench_summary.format_duration`: seconds if the value in seconds is at
least 1, else milliseconds if at least 1 ms, else microseconds; two decimal
places in every case. -/
def format_duration (seconds : ℚ) : String :=
  if 1 ≤ seconds then fmtFixed 2 seconds ++ " s"
  else
    let milliseconds := seconds * 1000
    if 1 ≤ milliseconds then fmtFixed 2 milliseconds ++ " ms"
    else
      let microseconds := milliseconds * 1000
      fmtFixed 2 microseconds ++ " µs"

/-- Whether a relative path matches `CRITERION_DIR.rglob("new/estimates.json")`:
its last two segments are `new` and `estimates.json`, at any depth. -/
def matchesNew (rel : List String) : Bool :=
  decide (2 ≤ rel.length) && (rel.drop (rel.length - 2) == ["new", "estimates.json"])

/-- The body of the Collector's `rglob` loop for one file: `none` when the file
does not match the pattern or fails to parse (the `except` clause `continue`s),
otherwise the extracted tuple: the benchmark name (`"/".join(parts[:-2])`), and
mean and standard deviation converted from nanoseconds to seconds. -/
def extract (f : CFile) : Option (String × ℚ × ℚ) :=
  if matchesNew f.rel then
    match f.content with
    | .ok m s =>
        some (joinSlash (f.rel.take (f.rel.length - 2)), m / 1000000000, s / 1000000000)
    | .bad => none
  else none

/-- `bench_summary.collect_estimates`: empty when `target/criterion` does not
exist, else the extracted tuples sorted by benchmark name (Python's stable
`list.sort` with key `item[0]`, modelled by the stable `mergeSort`). -/
def collect_estimates (t : CTree) : List (String × ℚ × ℚ) :=
  if t.dirExists = false then []
  else (t.files.filterMap extract).mergeSort (fun a b => decide (a.1 ≤ b.1))

/-- One Markdown row of the summary table, as `bench_summary.main` builds it. -/
def renderRow (r : String × ℚ × ℚ) : String :=
  "| `" ++ r.1 ++ "` | " ++ format_duration r.2.1 ++ " | " ++ format_duration r.2.2 ++ " |"

/-- The fixed header lines of the summary table in `bench_summary.main`. -/
def headerLines : List String :=
  ["Benchmark summary", "", "| Benchmark | Mean | Std Dev |", "| --- | --- | --- |"]

/-- The exact text `bench_summary.main` writes to the summary file: the fixed
sentence when no estimates were collected, else the joined lines of the table
followed by a final newline.  The script always terminates successfully. -/
def mainOutput (t : CTree) : String :=
  let estimates := collect_estimates t
  if estimates.isEmpty then "No benchmark results found.\n"
  else joinLines (headerLines ++ estimates.map renderRow) ++ "\n"

/-! ## Baseline Comparator (`check_pop.py`) -/

/-- What the Comparator's `read_mean` sees when it opens one `estimates.json`
file: either the `mean.point_estimate` field (nanoseconds), or a JSON parse
failure carrying the `json.JSONDecodeError` text, the exception `read_mean`
catches. -/
inductive PContent
  | ok (mean : ℚ)
  | bad (err : String)
deriving DecidableEq

/-- One file on disk as the Comparator sees it: its full path split into
segments, and its content. -/
structure PFile where
  path : List String
  content : PContent
deriving DecidableEq

/-- The fixed benchmark group of `check_pop.py`. -/
def GROUP : String := "pop_loop_vs_baseline"

/-- Whether a path matches the recursive glob
`target/criterion/{GROUP}/**/{baseline}/estimates.json`: the first three
segments are the fixed prefix, the last two are the baseline name and
`estimates.json`, with any number (possibly zero) of segments between. -/
def globPop (baseline : String) (p : List String) : Bool :=
  decide (5 ≤ p.length) && (p.take 3 == ["target", "criterion", GROUP]) &&
    (p.drop (p.length - 2) == [baseline, "estimates.json"])

/-- The files of the tree that the glob for `baseline` returns. -/
def popMatches (files : List PFile) (baseline : String) : List PFile :=
  files.filter (fun f => globPop baseline f.path)

/-- `check_pop.read_mean`: the mean point estimate of one file, or the fatal
`sys.exit` message naming the file and quoting the JSON error verbatim. -/
def read_mean (f : PFile) : Except String ℚ :=
  match f.content with
  | .ok m => .ok m
  | .bad e => .error ("[bench] invalid JSON in " ++ joinSlash f.path ++ ": " ++ e)

/-- One step of the generator sum `sum(read_mean(p) for p in paths)`: an
earlier `sys.exit` aborts everything after it. -/
def sumStep (acc : Except String ℚ) (f : PFile) : Except String ℚ :=
  match acc with
  | .error e => .error e
  | .ok s =>
    match read_mean f with
    | .ok m => .ok (s + m)
    | .error e => .error e

/-- `check_pop.sum_means`: glob the baseline's estimate files, `sys.exit` with
the missing-baseline message when none match, else sum their means, the first
unparsable file aborting with its `read_mean` message. -/
def sum_means (files : List PFile) (baseline : String) : Except String ℚ :=
  let paths := popMatches files baseline
  if paths.isEmpty then
    .error ("[bench] no estimates for baseline '" ++ baseline ++
      "'. Did you run with --save-baseline " ++ baseline ++ "?")
  else paths.foldl sumStep (.ok 0)

/-- The line `check_pop.py` prints:
`f"Improvement: {impr*100:.1f}% (base={base:.3g}, new={new:.3g})"`. -/
def imprLine (impr base new : ℚ) : String :=
  "Improvement: " ++ fmtFixed 1 (impr * 100) ++ "% (base=" ++ fmtG3 base ++
    ", new=" ++ fmtG3 new ++ ")"

/-- The observable outcome of one `check_pop.py` run: the lines printed to
stdout, and the exit result (`.ok ()` is exit status 0, `.error msg` a
non-zero exit carrying the diagnostic message). -/
structure CompOut where
  stdout : List String
  exit : Except String Unit

/-- The module-level code of `check_pop.py`: sum the `base` baseline, then the
`new` baseline (each `sys.exit`ing on a missing baseline or unparsable file),
reject a non-positive base aggregate, print the improvement line, and fail
with the fixed diagnostic when the improvement ratio is below 10%. -/
def runComparator (files : List PFile) : CompOut :=
  match sum_means files "base" with
  | .error e => ⟨[], .error e⟩
  | .ok base =>
    match sum_means files "new" with
    | .error e => ⟨[], .error e⟩
    | .ok new =>
      if base ≤ 0 then ⟨[], .error "invalid baseline (base <= 0)"⟩
      else
        let impr := (base - new) / base
        if impr < 1/10 then
          ⟨[imprLine impr base new], .error "pop loop speedup <10%"⟩
        else
          ⟨[imprLine impr base new], .ok ()⟩

/-- Whether a file's JSON parsed (its `mean.point_estimate` is available). -/
def okFile (f : PFile) : Bool :=
  match f.content with
  | .ok _ => true
  | .bad _ => false

/-- The mean point estimate of a parsed file (0 for an unparsable one; only
used under the assumption that the file parsed). -/
def meanOf (f : PFile) : ℚ :=
  match f.content with
  | .ok m => m
  | .bad _ => 0

/-- The baseline aggregate the spec describes: the sum of
`mean.point_estimate` over every file the baseline's glob matches. -/
def agg (files : List PFile) (baseline : String) : ℚ :=
  ((popMatches files baseline).map meanOf).sum

/-- The first file of a list whose JSON does not parse, if any: the file whose
`read_mean` aborts the generator sum. -/
def firstBad : List PFile → Option PFile
  | [] => none
  | f :: l =>
    match f.content with
    | .bad _ => some f
    | .ok _ => firstBad l

/-- Whether a Collector file's JSON parsed. -/
def okC (f : CFile) : Bool :=
  match f.content with
  | .ok _ _ => true
  | .bad => false

/-! ## The duration unit chosen by `format_duration` -/

/-- The three display units of `format_duration`. -/
inductive TUnit
  | s
  | ms
  | us
deriving DecidableEq

/-- How many seconds one display unit stands for. -/
def unitScale : TUnit → ℚ
  | .s => 1
  | .ms => 1/1000
  | .us => 1/1000000

/-- The suffix `format_duration` appends for each display unit. -/
def unitTag : TUnit → String
  | .s => " s"
  | .ms => " ms"
  | .us => " µs"

/-! ## Lemmas about the Collector -/

lemma extract_of_bad (f : CFile) (h : okC f = false) : extract f = none := by
  unfold extract
  rcases hc : f.content with _ | _
  · simp [okC, hc] at h
  · simp [hc]

lemma filterMap_extract_filter (l : List CFile) :
    (l.filter okC).filterMap extract = l.filterMap extract := by
  induction l with
  | nil => rfl
  | cons f l ih =>
    rcases h : okC f with _ | _
    · simp [List.filter_cons, h, List.filterMap_cons, extract_of_bad f h, ih]
    · simp [List.filter_cons, h, List.filterMap_cons, ih]

/-- C3: For every result file the Collector matches, any parse or read failure
of that file is a non-fatal skip of that single file only: the file is omitted
from the report and no other failure is raised, so the Collector never aborts
the whole report because of a partially-written or corrupted result file.
Formalised: the collected estimates and the written report over any tree are
exactly those over the same tree with every unparsable file removed (the
embedding is a total function, so no run aborts). -/
theorem collect_estimates_skips_unparsable (t : CTree) :
    collect_estimates t = collect_estimates ⟨t.dirExists, t.files.filter okC⟩ ∧
    mainOutput t = mainOutput ⟨t.dirExists, t.files.filter okC⟩ := by
  have h : collect_estimates t = collect_estimates ⟨t.dirExists, t.files.filter okC⟩ := by
    unfold collect_estimates
    rw [filterMap_extract_filter]
  exact ⟨h, by unfold mainOutput; rw [h]⟩

/-- C6: For every results root that is empty, non-existent, or yields zero
valid extracted tuples, the Collector writes exactly the sentence
"No benchmark results found.\n" to the output file and nothing else, and
terminates successfully (the embedding `mainOutput` is total: every run
terminates and the write is its only effect). -/
theorem mainOutput_no_results (t : CTree)
    (h : t.dirExists = false ∨ ∀ f ∈ t.files, extract f = none) :
    mainOutput t = "No benchmark results found.\n" := by
  have hnil : collect_estimates t = [] := by
    unfold collect_estimates
    rcases h with h | h
    · rw [if_pos h]
    · rcases hd : t.dirExists with _ | _
      · rw [if_pos rfl]
      · rw [if_neg (by simp)]
        rw [List.filterMap_eq_nil_iff.mpr h]
        exact List.mergeSort_nil
  unfold mainOutput
  rw [hnil]
  rfl

/-- Witness for C6 at a non-existent root. -/
theorem mainOutput_no_results_witness :
    ((⟨false, []⟩ : CTree).dirExists = false ∨
      ∀ f ∈ (⟨false, []⟩ : CTree).files, extract f = none) ∧
    mainOutput ⟨false, []⟩ = "No benchmark results found.\n" :=
  ⟨Or.inl rfl, mainOutput_no_results ⟨false, []⟩ (Or.inl rfl)⟩

/-- C8: For every matched result file at any nesting depth under the results
root, the Collector derives its benchmark identifier by dropping exactly the
last two path segments of the path relative to the root (the baseline-name and
file-name segments) and joining the remaining segments with "/". -/
theorem collect_estimates_bench_name (t : CTree) (f : CFile) (m s : ℚ)
    (ht : t.dirExists = true) (hf : f ∈ t.files) (hm : matchesNew f.rel = true)
    (hc : f.content = .ok m s) :
    (joinSlash (f.rel.take (f.rel.length - 2)), m / 1000000000, s / 1000000000) ∈
      collect_estimates t := by
  unfold collect_estimates
  rw [if_neg (by simp [ht])]
  rw [List.mem_mergeSort]
  exact List.mem_filterMap.mpr ⟨f, hf, by simp [extract, hm, hc]⟩

/-- Witness for C8 at a depth-4 path: the identifier keeps the two segments
above `new/estimates.json`. -/
theorem collect_estimates_bench_name_witness :
    (⟨true, [⟨["gzset", "pop", "new", "estimates.json"], .ok 2500000000 50000000⟩]⟩ :
        CTree).dirExists = true ∧
    (joinSlash ((["gzset", "pop", "new", "estimates.json"] : List String).take
        ((["gzset", "pop", "new", "estimates.json"] : List String).length - 2)),
      (2500000000 : ℚ) / 1000000000, (50000000 : ℚ) / 1000000000) ∈
      collect_estimates
        ⟨true, [⟨["gzset", "pop", "new", "estimates.json"], .ok 2500000000 50000000⟩]⟩ :=
  ⟨rfl,
    collect_estimates_bench_name
      ⟨true, [⟨["gzset", "pop", "new", "estimates.json"], .ok 2500000000 50000000⟩]⟩
      ⟨["gzset", "pop", "new", "estimates.json"], .ok 2500000000 50000000⟩
      2500000000 50000000 rfl (by simp) (by decide) rfl⟩

lemma collect_estimates_pairwise (t : CTree) :
    List.Pairwise (fun a b : String × ℚ × ℚ => a.1 ≤ b.1) (collect_estimates t) := by
  unfold collect_estimates
  split
  · exact List.Pairwise.nil
  · refine List.Pairwise.imp ?_ (List.sorted_mergeSort ?_ ?_ _)
    · intro a b h
      exact of_decide_eq_true h
    · intro a b c hab hbc
      simp only [decide_eq_true_eq] at hab hbc ⊢
      exact le_trans hab hbc
    · intro a b
      simp only [Bool.or_eq_true, decide_eq_true_eq]
      exact le_total a.1 b.1

lemma isEmpty_false_of_ne_nil {α : Type} {l : List α} (h : l ≠ []) :
    l.isEmpty = false := by
  rcases l with _ | ⟨x, xs⟩
  · exact absurd rfl h
  · rfl

lemma joinLines_cons_cons (x y : String) (l : List String) :
    joinLines (x :: y :: l) = x ++ "\n" ++ joinLines (y :: l) := rfl

/-- The summary text over a non-empty estimate list: the fixed title, blank
line, header and separator rows, then the benchmark rows and a final
newline. -/
lemma mainOutput_header (t : CTree) (h : collect_estimates t ≠ []) :
    mainOutput t =
      "Benchmark summary\n\n| Benchmark | Mean | Std Dev |\n| --- | --- | --- |\n" ++
        (joinLines ((collect_estimates t).map renderRow) ++ "\n") := by
  rcases he : collect_estimates t with _ | ⟨e, es⟩
  · exact absurd he h
  · unfold mainOutput
    rw [he, if_neg (by simp)]
    simp only [headerLines, List.cons_append, List.nil_append, List.map_cons]
    rw [joinLines_cons_cons, joinLines_cons_cons, joinLines_cons_cons, joinLines_cons_cons]
    simp only [← String.append_assoc]
    congr 2

/-- C9: For every non-empty set of extracted estimate tuples, the rows of the
rendered table appear in ascending lexicographic order of benchmark
identifier, one row per tuple: the tuples are pairwise ordered by identifier
and the written table carries exactly one rendered row per tuple, in that
order. -/
theorem collect_estimates_sorted_rows (t : CTree) (h : collect_estimates t ≠ []) :
    List.Pairwise (fun a b : String × ℚ × ℚ => a.1 ≤ b.1) (collect_estimates t) ∧
    mainOutput t = joinLines (headerLines ++ (collect_estimates t).map renderRow) ++ "\n" := by
  refine ⟨collect_estimates_pairwise t, ?_⟩
  unfold mainOutput
  rw [if_neg (by simp [isEmpty_false_of_ne_nil h])]

/-- Witness for C9: two benchmarks discovered in reverse name order. -/
theorem collect_estimates_sorted_rows_witness :
    collect_estimates ⟨true, [⟨["b", "x", "new", "estimates.json"], .ok 1 2⟩,
        ⟨["a", "y", "new", "estimates.json"], .ok 3 4⟩]⟩ ≠ [] ∧
    (List.Pairwise (fun a b : String × ℚ × ℚ => a.1 ≤ b.1)
        (collect_estimates ⟨true, [⟨["b", "x", "new", "estimates.json"], .ok 1 2⟩,
          ⟨["a", "y", "new", "estimates.json"], .ok 3 4⟩]⟩) ∧
      mainOutput ⟨true, [⟨["b", "x", "new", "estimates.json"], .ok 1 2⟩,
          ⟨["a", "y", "new", "estimates.json"], .ok 3 4⟩]⟩ =
        joinLines (headerLines ++
          (collect_estimates ⟨true, [⟨["b", "x", "new", "estimates.json"], .ok 1 2⟩,
            ⟨["a", "y", "new", "estimates.json"], .ok 3 4⟩]⟩).map renderRow) ++ "\n") := by
  have hmem : (joinSlash ((["b", "x", "new", "estimates.json"] : List String).take 2),
      (1 : ℚ) / 1000000000, (2 : ℚ) / 1000000000) ∈
      collect_estimates ⟨true, [⟨["b", "x", "new", "estimates.json"], .ok 1 2⟩,
        ⟨["a", "y", "new", "estimates.json"], .ok 3 4⟩]⟩ := by
    unfold collect_estimates
    rw [if_neg (by simp)]
    exact List.mem_mergeSort.mpr
      (List.mem_filterMap.mpr ⟨⟨["b", "x", "new", "estimates.json"], .ok 1 2⟩, by simp, rfl⟩)
  exact ⟨List.ne_nil_of_mem hmem,
    collect_estimates_sorted_rows _ (List.ne_nil_of_mem hmem)⟩

/-- C10: For every non-empty set of extracted estimates, the Collector's
output file begins with the title line "Benchmark summary" followed by a blank
line before the Markdown table header "| Benchmark | Mean | Std Dev |" and its
separator row, and ends with a trailing newline. -/
theorem mainOutput_title_and_newline (t : CTree) (h : collect_estimates t ≠ []) :
    (∃ rest, mainOutput t =
      "Benchmark summary\n\n| Benchmark | Mean | Std Dev |\n| --- | --- | --- |\n" ++ rest) ∧
    (∃ body, mainOutput t = body ++ "\n") := by
  refine ⟨⟨_, mainOutput_header t h⟩,
    ⟨joinLines (headerLines ++ (collect_estimates t).map renderRow), ?_⟩⟩
  unfold mainOutput
  rw [if_neg (by simp [isEmpty_false_of_ne_nil h])]

/-- Witness for C10 at a one-benchmark tree. -/
theorem mainOutput_title_and_newline_witness :
    collect_estimates ⟨true, [⟨["gzset", "score", "new", "estimates.json"], .ok 5 6⟩]⟩ ≠ [] ∧
    ((∃ rest, mainOutput ⟨true, [⟨["gzset", "score", "new", "estimates.json"], .ok 5 6⟩]⟩ =
      "Benchmark summary\n\n| Benchmark | Mean | Std Dev |\n| --- | --- | --- |\n" ++ rest) ∧
    (∃ body, mainOutput ⟨true, [⟨["gzset", "score", "new", "estimates.json"], .ok 5 6⟩]⟩ =
      body ++ "\n")) := by
  have hmem : (joinSlash ((["gzset", "score", "new", "estimates.json"] : List String).take 2),
      (5 : ℚ) / 1000000000, (6 : ℚ) / 1000000000) ∈
      collect_estimates ⟨true, [⟨["gzset", "score", "new", "estimates.json"], .ok 5 6⟩]⟩ := by
    unfold collect_estimates
    rw [if_neg (by simp)]
    exact List.mem_mergeSort.mpr
      (List.mem_filterMap.mpr ⟨⟨["gzset", "score", "new", "estimates.json"], .ok 5 6⟩, by simp, rfl⟩)
  exact ⟨List.ne_nil_of_mem hmem,
    mainOutput_title_and_newline _ (List.ne_nil_of_mem hmem)⟩

/-- C5: For every nanosecond point-estimate input ≥ 0, the displayed duration
equals the input divided by 1e9 seconds, rendered with two decimal places in
the largest unit among s, ms, µs in which the displayed magnitude is ≥ 1.00,
falling back to µs when no unit reaches 1.00.  Formalised: the rendered string
is the two-decimal rendering of the value expressed in the chosen unit, that
value times the unit's scale is exactly the input over 1e9 seconds, and the
chosen unit is the largest one whose magnitude reaches 1 (or µs when none
does). -/
theorem format_duration_unit_choice (ns : ℚ) (h : 0 ≤ ns) :
    ∃ u : TUnit,
      format_duration (ns / 1000000000) =
        fmtFixed 2 (ns / 1000000000 / unitScale u) ++ unitTag u ∧
      ns / 1000000000 / unitScale u * unitScale u = ns / 1000000000 ∧
      ((1 ≤ ns / 1000000000 / unitScale u ∧
        ∀ u' : TUnit, unitScale u < unitScale u' → ns / 1000000000 / unitScale u' < 1) ∨
       (u = TUnit.us ∧ ∀ u' : TUnit, ns / 1000000000 / unitScale u' < 1)) := by
  set sec := ns / 1000000000 with hsecdef
  have hsec : 0 ≤ sec := by positivity
  have hscale_s : unitScale TUnit.s = 1 := rfl
  have hdiv_s : sec / unitScale TUnit.s = sec := by rw [hscale_s, div_one]
  have hdiv_ms : sec / unitScale TUnit.ms = sec * 1000 := by
    rw [show unitScale TUnit.ms = (1:ℚ)/1000 from rfl, one_div, div_eq_mul_inv, inv_inv]
  have hdiv_us : sec / unitScale TUnit.us = sec * 1000 * 1000 := by
    rw [show unitScale TUnit.us = (1:ℚ)/1000000 from rfl, one_div, div_eq_mul_inv, inv_inv]
    ring
  by_cases h1 : 1 ≤ sec
  · refine ⟨TUnit.s, ?_, ?_, Or.inl ⟨?_, ?_⟩⟩
    · rw [hdiv_s]
      unfold format_duration
      rw [if_pos h1]
      rfl
    · rw [hdiv_s, hscale_s, mul_one]
    · rw [hdiv_s]; exact h1
    · intro u' hu'
      exfalso
      cases u' <;> norm_num [unitScale] at hu'
  · by_cases h2 : 1 ≤ sec * 1000
    · refine ⟨TUnit.ms, ?_, ?_, Or.inl ⟨?_, ?_⟩⟩
      · rw [hdiv_ms]
        unfold format_duration
        rw [if_neg h1]
        simp only []
        rw [if_pos h2]
        rfl
      · exact div_mul_cancel₀ sec (by norm_num [unitScale])
      · rw [hdiv_ms]; exact h2
      · intro u' hu'
        cases u'
        · rw [hdiv_s]; exact lt_of_not_le h1
        · exfalso; norm_num [unitScale] at hu'
        · exfalso; norm_num [unitScale] at hu'
    · by_cases h3 : 1 ≤ sec * 1000 * 1000
      · refine ⟨TUnit.us, ?_, ?_, Or.inl ⟨?_, ?_⟩⟩
        · rw [hdiv_us]
          unfold format_duration
          rw [if_neg h1]
          simp only []
          rw [if_neg h2]
          rfl
        · exact div_mul_cancel₀ sec (by norm_num [unitScale])
        · rw [hdiv_us]; exact h3
        · intro u' hu'
          cases u'
          · rw [hdiv_s]; exact lt_of_not_le h1
          · rw [hdiv_ms]; exact lt_of_not_le h2
          · exfalso; norm_num [unitScale] at hu'
      · refine ⟨TUnit.us, ?_, ?_, Or.inr ⟨rfl, ?_⟩⟩
        · rw [hdiv_us]
          unfold format_duration
          rw [if_neg h1]
          simp only []
          rw [if_neg h2]
          rfl
        · exact div_mul_cancel₀ sec (by norm_num [unitScale])
        · intro u'
          cases u'
          · rw [hdiv_s]; exact lt_of_not_le h1
          · rw [hdiv_ms]; exact lt_of_not_le h2
          · rw [hdiv_us]; exact lt_of_not_le h3

/-- Witness for C5 at 2,500,000,000 ns (2.5 seconds). -/
theorem format_duration_unit_choice_witness :
    (0 : ℚ) ≤ 2500000000 ∧
    (∃ u : TUnit,
      format_duration ((2500000000 : ℚ) / 1000000000) =
        fmtFixed 2 ((2500000000 : ℚ) / 1000000000 / unitScale u) ++ unitTag u ∧
      (2500000000 : ℚ) / 1000000000 / unitScale u * unitScale u =
        (2500000000 : ℚ) / 1000000000 ∧
      ((1 ≤ (2500000000 : ℚ) / 1000000000 / unitScale u ∧
        ∀ u' : TUnit, unitScale u < unitScale u' →
          (2500000000 : ℚ) / 1000000000 / unitScale u' < 1) ∨
       (u = TUnit.us ∧
        ∀ u' : TUnit, (2500000000 : ℚ) / 1000000000 / unitScale u' < 1))) :=
  ⟨by norm_num, format_duration_unit_choice 2500000000 (by norm_num)⟩

/-! ## Lemmas about the Comparator -/

lemma foldl_sumStep_error (l : List PFile) (e : String) :
    l.foldl sumStep (.error e) = .error e := by
  induction l with
  | nil => rfl
  | cons f l ih =>
    rw [List.foldl_cons]
    exact ih

lemma foldl_sumStep_ok (l : List PFile) (h : ∀ f ∈ l, okFile f = true) (s : ℚ) :
    l.foldl sumStep (.ok s) = .ok (s + (l.map meanOf).sum) := by
  induction l generalizing s with
  | nil => simp
  | cons f l ih =>
    have hf : okFile f = true := h f (by simp)
    rcases hc : f.content with m | e
    · rw [List.foldl_cons,
        show sumStep (.ok s) f = .ok (s + m) from by simp [sumStep, read_mean, hc],
        ih (fun g hg => h g (by simp [hg])) (s + m)]
      simp [meanOf, hc, add_assoc]
    · rw [okFile, hc] at hf
      exact absurd hf (by simp)

lemma firstBad_some (l : List PFile) (g : PFile) (h : firstBad l = some g) :
    g ∈ l ∧ ∃ e, g.content = .bad e := by
  induction l with
  | nil => simp [firstBad] at h
  | cons f l ih =>
    rcases hc : f.content with m | e
    · simp only [firstBad, hc] at h
      obtain ⟨hmem, he⟩ := ih h
      exact ⟨List.mem_cons_of_mem f hmem, he⟩
    · simp only [firstBad, hc, Option.some.injEq] at h
      subst h
      exact ⟨List.mem_cons_self f l, e, hc⟩

lemma firstBad_none (l : List PFile) (h : firstBad l = none) :
    ∀ f ∈ l, okFile f = true := by
  induction l with
  | nil => simp
  | cons f l ih =>
    rcases hc : f.content with m | e
    · simp only [firstBad, hc] at h
      intro g hg
      rcases List.mem_cons.mp hg with hg | hg
      · subst hg; simp [okFile, hc]
      · exact ih h g hg
    · simp [firstBad, hc] at h

lemma exists_firstBad (l : List PFile) (h : ∃ f ∈ l, okFile f = false) :
    ∃ g, firstBad l = some g := by
  rcases hfb : firstBad l with _ | g
  · obtain ⟨f, hf, hff⟩ := h
    rw [firstBad_none l hfb f hf] at hff
    exact absurd hff (by simp)
  · exact ⟨g, rfl⟩

lemma foldl_sumStep_firstBad (l : List PFile) (g : PFile) (e : String)
    (hg : firstBad l = some g) (he : g.content = .bad e) (s : ℚ) :
    l.foldl sumStep (.ok s) =
      .error ("[bench] invalid JSON in " ++ joinSlash g.path ++ ": " ++ e) := by
  induction l generalizing s with
  | nil => simp [firstBad] at hg
  | cons f l ih =>
    rcases hc : f.content with m | e'
    · simp only [firstBad, hc] at hg
      rw [List.foldl_cons,
        show sumStep (.ok s) f = .ok (s + m) from by simp [sumStep, read_mean, hc]]
      exact ih hg (s + m)
    · simp only [firstBad, hc, Option.some.injEq] at hg
      subst hg
      have hee : e' = e := by
        rw [hc] at he
        exact (PContent.bad.injEq _ _).mp he
      subst hee
      rw [List.foldl_cons,
        show sumStep (.ok s) f =
            .error ("[bench] invalid JSON in " ++ joinSlash f.path ++ ": " ++ e') from by
          simp [sumStep, read_mean, hc]]
      exact foldl_sumStep_error l _

lemma sum_means_ok (files : List PFile) (b : String)
    (hne : popMatches files b ≠ []) (hok : ∀ f ∈ popMatches files b, okFile f = true) :
    sum_means files b = .ok (agg files b) := by
  unfold sum_means
  rw [if_neg (by rw [isEmpty_false_of_ne_nil hne]; simp)]
  rw [foldl_sumStep_ok _ hok 0, zero_add]
  rfl

lemma sum_means_bad (files : List PFile) (b : String) (g : PFile) (e : String)
    (hne : popMatches files b ≠ []) (hg : firstBad (popMatches files b) = some g)
    (he : g.content = .bad e) :
    sum_means files b =
      .error ("[bench] invalid JSON in " ++ joinSlash g.path ++ ": " ++ e) := by
  unfold sum_means
  rw [if_neg (by rw [isEmpty_false_of_ne_nil hne]; simp)]
  exact foldl_sumStep_firstBad _ g e hg he 0

lemma sum_means_missing (files : List PFile) (b : String) (h : popMatches files b = []) :
    sum_means files b =
      .error ("[bench] no estimates for baseline '" ++ b ++
        "'. Did you run with --save-baseline " ++ b ++ "?") := by
  unfold sum_means
  rw [h]
  rfl

lemma agg_eq_single (files : List PFile) (b : String) (q : ℚ)
    (h : (popMatches files b).map meanOf = [q]) : agg files b = q := by
  rw [agg, h]
  simp

lemma agg_pos_single (files : List PFile) (b : String) (q : ℚ)
    (h : (popMatches files b).map meanOf = [q]) (hq : 0 < q) : 0 < agg files b := by
  rw [agg, h]
  simpa using hq

/-- The Comparator's behaviour on a well-formed tree: both baselines present,
every matched file parses, positive base aggregate.  It prints exactly the
improvement line and fails exactly when the ratio is below 10%. -/
lemma runComparator_happy (files : List PFile)
    (hb : popMatches files "base" ≠ []) (hn : popMatches files "new" ≠ [])
    (hokb : ∀ f ∈ popMatches files "base", okFile f = true)
    (hokn : ∀ f ∈ popMatches files "new", okFile f = true)
    (hpos : 0 < agg files "base") :
    runComparator files =
      ⟨[imprLine ((agg files "base" - agg files "new") / agg files "base")
          (agg files "base") (agg files "new")],
        if (agg files "base" - agg files "new") / agg files "base" < 1/10 then
          .error "pop loop speedup <10%"
        else .ok ()⟩ := by
  unfold runComparator
  rw [sum_means_ok files "base" hb hokb, sum_means_ok files "new" hn hokn]
  simp only []
  rw [if_neg (not_le.mpr hpos)]
  by_cases hthr : (agg files "base" - agg files "new") / agg files "base" < 1/10
  · rw [if_pos hthr, if_pos hthr]
  · rw [if_neg hthr, if_neg hthr]

/-- C1: For every pair of baseline aggregates with base > 0 and both baselines
present (and, as the aggregates presuppose, every matched file parsing), the
Comparator terminates with failure status and the fixed diagnostic message
"pop loop speedup <10%" if and only if the improvement ratio
(base - new) / base is strictly less than 0.10; otherwise it terminates with
success status. -/
theorem comparator_threshold_iff (files : List PFile)
    (hb : popMatches files "base" ≠ []) (hn : popMatches files "new" ≠ [])
    (hok : ∀ f ∈ popMatches files "base" ++ popMatches files "new", okFile f = true)
    (hpos : 0 < agg files "base") :
    ((runComparator files).exit = .error "pop loop speedup <10%" ↔
      (agg files "base" - agg files "new") / agg files "base" < 1/10) ∧
    (¬ (agg files "base" - agg files "new") / agg files "base" < 1/10 →
      (runComparator files).exit = .ok ()) := by
  have hokb : ∀ f ∈ popMatches files "base", okFile f = true :=
    fun f hf => hok f (List.mem_append.mpr (Or.inl hf))
  have hokn : ∀ f ∈ popMatches files "new", okFile f = true :=
    fun f hf => hok f (List.mem_append.mpr (Or.inr hf))
  rw [runComparator_happy files hb hn hokb hokn hpos]
  by_cases hthr : (agg files "base" - agg files "new") / agg files "base" < 1/10
  · simp [hthr]
  · simp [hthr]

/-- Witness for C1: base 1,000,000,000 ns, new 950,000,000 ns (5%
improvement), which fails the threshold. -/
theorem comparator_threshold_iff_witness :
    popMatches [(⟨["target", "criterion", "pop_loop_vs_baseline", "pop", "base",
        "estimates.json"], .ok 1000000000⟩ : PFile),
      ⟨["target", "criterion", "pop_loop_vs_baseline", "pop", "new",
        "estimates.json"], .ok 950000000⟩] "base" ≠ [] ∧
    0 < agg [(⟨["target", "criterion", "pop_loop_vs_baseline", "pop", "base",
        "estimates.json"], .ok 1000000000⟩ : PFile),
      ⟨["target", "criterion", "pop_loop_vs_baseline", "pop", "new",
        "estimates.json"], .ok 950000000⟩] "base" ∧
    (((runComparator [(⟨["target", "criterion", "pop_loop_vs_baseline", "pop", "base",
          "estimates.json"], .ok 1000000000⟩ : PFile),
        ⟨["target", "criterion", "pop_loop_vs_baseline", "pop", "new",
          "estimates.json"], .ok 950000000⟩]).exit = .error "pop loop speedup <10%" ↔
      (agg [(⟨["target", "criterion", "pop_loop_vs_baseline", "pop", "base",
            "estimates.json"], .ok 1000000000⟩ : PFile),
          ⟨["target", "criterion", "pop_loop_vs_baseline", "pop", "new",
            "estimates.json"], .ok 950000000⟩] "base" -
        agg [(⟨["target", "criterion", "pop_loop_vs_baseline", "pop", "base",
            "estimates.json"], .ok 1000000000⟩ : PFile),
          ⟨["target", "criterion", "pop_loop_vs_baseline", "pop", "new",
            "estimates.json"], .ok 950000000⟩] "new") /
        agg [(⟨["target", "criterion", "pop_loop_vs_baseline", "pop", "base",
            "estimates.json"], .ok 1000000000⟩ : PFile),
          ⟨["target", "criterion", "pop_loop_vs_baseline", "pop", "new",
            "estimates.json"], .ok 950000000⟩] "base" < 1/10) ∧
    (¬ (agg [(⟨["target", "criterion", "pop_loop_vs_baseline", "pop", "base",
            "estimates.json"], .ok 1000000000⟩ : PFile),
          ⟨["target", "criterion", "pop_loop_vs_baseline", "pop", "new",
            "estimates.json"], .ok 950000000⟩] "base" -
        agg [(⟨["target", "criterion", "pop_loop_vs_baseline", "pop", "base",
            "estimates.json"], .ok 1000000000⟩ : PFile),
          ⟨["target", "criterion", "pop_loop_vs_baseline", "pop", "new",
            "estimates.json"], .ok 950000000⟩] "new") /
        agg [(⟨["target", "criterion", "pop_loop_vs_baseline", "pop", "base",
            "estimates.json"], .ok 1000000000⟩ : PFile),
          ⟨["target", "criterion", "pop_loop_vs_baseline", "pop", "new",
            "estimates.json"], .ok 950000000⟩] "base" < 1/10 →
      (runComparator [(⟨["target", "criterion", "pop_loop_vs_baseline", "pop", "base",
          "estimates.json"], .ok 1000000000⟩ : PFile),
        ⟨["target", "criterion", "pop_loop_vs_baseline", "pop", "new",
          "estimates.json"], .ok 950000000⟩]).exit = .ok ())) :=
  ⟨by decide, agg_pos_single _ _ 1000000000 rfl (by norm_num),
    comparator_threshold_iff _ (by decide) (by decide) (by decide)
      (agg_pos_single _ _ 1000000000 rfl (by norm_num))⟩

/-- Counterexample for C2 as stated: a results tree in which both baselines
match one parsed file each, but the base aggregate is 0 (a zero
mean.point_estimate), so the Comparator exits at the "invalid baseline"
check and never prints the improvement line the claim promises. -/
theorem comparator_print_cex :
    ¬ ((popMatches [(⟨["target", "criterion", "pop_loop_vs_baseline", "pop", "base",
          "estimates.json"], .ok 0⟩ : PFile),
        ⟨["target", "criterion", "pop_loop_vs_baseline", "pop", "new",
          "estimates.json"], .ok 5⟩] "base" ≠ [] ∧
      popMatches [(⟨["target", "criterion", "pop_loop_vs_baseline", "pop", "base",
          "estimates.json"], .ok 0⟩ : PFile),
        ⟨["target", "criterion", "pop_loop_vs_baseline", "pop", "new",
          "estimates.json"], .ok 5⟩] "new" ≠ [] ∧
      ∀ f ∈ popMatches [(⟨["target", "criterion", "pop_loop_vs_baseline", "pop", "base",
            "estimates.json"], .ok 0⟩ : PFile),
          ⟨["target", "criterion", "pop_loop_vs_baseline", "pop", "new",
            "estimates.json"], .ok 5⟩] "base" ++
          popMatches [(⟨["target", "criterion", "pop_loop_vs_baseline", "pop", "base",
            "estimates.json"], .ok 0⟩ : PFile),
          ⟨["target", "criterion", "pop_loop_vs_baseline", "pop", "new",
            "estimates.json"], .ok 5⟩] "new", okFile f = true) →
      (runComparator [(⟨["target", "criterion", "pop_loop_vs_baseline", "pop", "base",
          "estimates.json"], .ok 0⟩ : PFile),
        ⟨["target", "criterion", "pop_loop_vs_baseline", "pop", "new",
          "estimates.json"], .ok 5⟩]).stdout =
        ["Improvement: " ++
          fmtFixed 1
            ((agg [(⟨["target", "criterion", "pop_loop_vs_baseline", "pop", "base",
                "estimates.json"], .ok 0⟩ : PFile),
              ⟨["target", "criterion", "pop_loop_vs_baseline", "pop", "new",
                "estimates.json"], .ok 5⟩] "base" -
              agg [(⟨["target", "criterion", "pop_loop_vs_baseline", "pop", "base",
                "estimates.json"], .ok 0⟩ : PFile),
              ⟨["target", "criterion", "pop_loop_vs_baseline", "pop", "new",
                "estimates.json"], .ok 5⟩] "new") /
              agg [(⟨["target", "criterion", "pop_loop_vs_baseline", "pop", "base",
                "estimates.json"], .ok 0⟩ : PFile),
              ⟨["target", "criterion", "pop_loop_vs_baseline", "pop", "new",
                "estimates.json"], .ok 5⟩] "base" * 100) ++
          "% (base=" ++
          fmtG3 (agg [(⟨["target", "criterion", "pop_loop_vs_baseline", "pop", "base",
              "estimates.json"], .ok 0⟩ : PFile),
            ⟨["target", "criterion", "pop_loop_vs_baseline", "pop", "new",
              "estimates.json"], .ok 5⟩] "base") ++
          ", new=" ++
          fmtG3 (agg [(⟨["target", "criterion", "pop_loop_vs_baseline", "pop", "base",
              "estimates.json"], .ok 0⟩ : PFile),
            ⟨["target", "criterion", "pop_loop_vs_baseline", "pop", "new",
              "estimates.json"], .ok 5⟩] "new") ++ ")"]) := by
  intro h
  have hrc : runComparator [(⟨["target", "criterion", "pop_loop_vs_baseline", "pop", "base",
      "estimates.json"], .ok 0⟩ : PFile),
      ⟨["target", "criterion", "pop_loop_vs_baseline", "pop", "new",
        "estimates.json"], .ok 5⟩] =
      ⟨[], .error "invalid baseline (base <= 0)"⟩ := by
    have hsb := sum_means_ok [(⟨["target", "criterion", "pop_loop_vs_baseline", "pop", "base",
        "estimates.json"], .ok 0⟩ : PFile),
        ⟨["target", "criterion", "pop_loop_vs_baseline", "pop", "new",
          "estimates.json"], .ok 5⟩] "base" (by decide) (by decide)
    have hsn := sum_means_ok [(⟨["target", "criterion", "pop_loop_vs_baseline", "pop", "base",
        "estimates.json"], .ok 0⟩ : PFile),
        ⟨["target", "criterion", "pop_loop_vs_baseline", "pop", "new",
          "estimates.json"], .ok 5⟩] "new" (by decide) (by decide)
    have hagg : agg [(⟨["target", "criterion", "pop_loop_vs_baseline", "pop", "base",
        "estimates.json"], .ok 0⟩ : PFile),
        ⟨["target", "criterion", "pop_loop_vs_baseline", "pop", "new",
          "estimates.json"], .ok 5⟩] "base" = 0 := by
      exact agg_eq_single _ _ 0 rfl
    unfold runComparator
    rw [hsb, hsn]
    simp only []
    rw [if_pos (by rw [hagg])]
  have h2 := h ⟨by decide, by decide, by decide⟩
  rw [hrc] at h2
  exact List.noConfusion h2

/-- C2 amended: For every results tree in which both baselines match at least
one file, every matched file parses, and the base aggregate is positive, the
Comparator's aggregate for a baseline equals the sum of mean.point_estimate
over every file matching <group>/**/<baseline>/estimates.json (the definition
of `agg`), the improvement ratio equals (base - new) / base, and the printed
line reports the improvement as a percentage to one decimal place followed by
the raw base and new aggregates rendered to 3 significant figures. -/
theorem comparator_print_line (files : List PFile)
    (hb : popMatches files "base" ≠ []) (hn : popMatches files "new" ≠ [])
    (hok : ∀ f ∈ popMatches files "base" ++ popMatches files "new", okFile f = true)
    (hpos : 0 < agg files "base") :
    (runComparator files).stdout =
      ["Improvement: " ++
        fmtFixed 1 ((agg files "base" - agg files "new") / agg files "base" * 100) ++
        "% (base=" ++ fmtG3 (agg files "base") ++
        ", new=" ++ fmtG3 (agg files "new") ++ ")"] := by
  have hokb : ∀ f ∈ popMatches files "base", okFile f = true :=
    fun f hf => hok f (List.mem_append.mpr (Or.inl hf))
  have hokn : ∀ f ∈ popMatches files "new", okFile f = true :=
    fun f hf => hok f (List.mem_append.mpr (Or.inr hf))
  rw [runComparator_happy files hb hn hokb hokn hpos]
  rfl

/-- Witness for the amended C2: base 1,000,000,000 ns, new 850,000,000 ns. -/
theorem comparator_print_line_witness :
    popMatches [(⟨["target", "criterion", "pop_loop_vs_baseline", "pop", "base",
        "estimates.json"], .ok 1000000000⟩ : PFile),
      ⟨["target", "criterion", "pop_loop_vs_baseline", "pop", "new",
        "estimates.json"], .ok 850000000⟩] "base" ≠ [] ∧
    0 < agg [(⟨["target", "criterion", "pop_loop_vs_baseline", "pop", "base",
        "estimates.json"], .ok 1000000000⟩ : PFile),
      ⟨["target", "criterion", "pop_loop_vs_baseline", "pop", "new",
        "estimates.json"], .ok 850000000⟩] "base" ∧
    (runComparator [(⟨["target", "criterion", "pop_loop_vs_baseline", "pop", "base",
        "estimates.json"], .ok 1000000000⟩ : PFile),
      ⟨["target", "criterion", "pop_loop_vs_baseline", "pop", "new",
        "estimates.json"], .ok 850000000⟩]).stdout =
      ["Improvement: " ++
        fmtFixed 1
          ((agg [(⟨["target", "criterion", "pop_loop_vs_baseline", "pop", "base",
              "estimates.json"], .ok 1000000000⟩ : PFile),
            ⟨["target", "criterion", "pop_loop_vs_baseline", "pop", "new",
              "estimates.json"], .ok 850000000⟩] "base" -
            agg [(⟨["target", "criterion", "pop_loop_vs_baseline", "pop", "base",
              "estimates.json"], .ok 1000000000⟩ : PFile),
            ⟨["target", "criterion", "pop_loop_vs_baseline", "pop", "new",
              "estimates.json"], .ok 850000000⟩] "new") /
            agg [(⟨["target", "criterion", "pop_loop_vs_baseline", "pop", "base",
              "estimates.json"], .ok 1000000000⟩ : PFile),
            ⟨["target", "criterion", "pop_loop_vs_baseline", "pop", "new",
              "estimates.json"], .ok 850000000⟩] "base" * 100) ++
        "% (base=" ++
        fmtG3 (agg [(⟨["target", "criterion", "pop_loop_vs_baseline", "pop", "base",
            "estimates.json"], .ok 1000000000⟩ : PFile),
          ⟨["target", "criterion", "pop_loop_vs_baseline", "pop", "new",
            "estimates.json"], .ok 850000000⟩] "base") ++
        ", new=" ++
        fmtG3 (agg [(⟨["target", "criterion", "pop_loop_vs_baseline", "pop", "base",
            "estimates.json"], .ok 1000000000⟩ : PFile),
          ⟨["target", "criterion", "pop_loop_vs_baseline", "pop", "new",
            "estimates.json"], .ok 850000000⟩] "new") ++ ")"] :=
  ⟨by decide, agg_pos_single _ _ 1000000000 rfl (by norm_num),
    comparator_print_line _ (by decide) (by decide) (by decide)
      (agg_pos_single _ _ 1000000000 rfl (by norm_num))⟩

/-- C4: For every matching result file that the Comparator cannot parse, the
Comparator terminates the entire run with failure status, reporting the
offending file path and the parse error verbatim, rather than omitting the
file from the aggregate sum: whenever some matched file of either baseline is
unparsable, the whole run ends with exit failure carrying the
"[bench] invalid JSON in <path>: <error>" message of such a file, and nothing
is printed. -/
theorem comparator_parse_failure_fatal (files : List PFile)
    (hb : popMatches files "base" ≠ []) (hn : popMatches files "new" ≠ [])
    (hbad : ∃ f ∈ popMatches files "base" ++ popMatches files "new", okFile f = false) :
    ∃ f ∈ popMatches files "base" ++ popMatches files "new", ∃ e, f.content = .bad e ∧
      runComparator files =
        ⟨[], .error ("[bench] invalid JSON in " ++ joinSlash f.path ++ ": " ++ e)⟩ := by
  rcases hfb : firstBad (popMatches files "base") with _ | g
  · have hokb := firstBad_none _ hfb
    have hbadn : ∃ f ∈ popMatches files "new", okFile f = false := by
      obtain ⟨f, hf, hff⟩ := hbad
      rcases List.mem_append.mp hf with h | h
      · rw [hokb f h] at hff
        exact absurd hff (by simp)
      · exact ⟨f, h, hff⟩
    obtain ⟨g, hg⟩ := exists_firstBad _ hbadn
    obtain ⟨hmem, e, he⟩ := firstBad_some _ g hg
    refine ⟨g, List.mem_append.mpr (Or.inr hmem), e, he, ?_⟩
    unfold runComparator
    rw [sum_means_ok files "base" hb hokb, sum_means_bad files "new" g e hn hg he]
  · obtain ⟨hmem, e, he⟩ := firstBad_some _ g hfb
    refine ⟨g, List.mem_append.mpr (Or.inl hmem), e, he, ?_⟩
    unfold runComparator
    rw [sum_means_bad files "base" g e hb hfb he]

/-- Witness for C4: the `new` baseline's file is corrupt. -/
theorem comparator_parse_failure_fatal_witness :
    (∃ f ∈ popMatches [(⟨["target", "criterion", "pop_loop_vs_baseline", "pop", "base",
          "estimates.json"], .ok 7⟩ : PFile),
        ⟨["target", "criterion", "pop_loop_vs_baseline", "pop", "new",
          "estimates.json"], .bad "Expecting value: line 1 column 1 (char 0)"⟩] "base" ++
        popMatches [(⟨["target", "criterion", "pop_loop_vs_baseline", "pop", "base",
          "estimates.json"], .ok 7⟩ : PFile),
        ⟨["target", "criterion", "pop_loop_vs_baseline", "pop", "new",
          "estimates.json"], .bad "Expecting value: line 1 column 1 (char 0)"⟩] "new",
        okFile f = false) ∧
    (∃ f ∈ popMatches [(⟨["target", "criterion", "pop_loop_vs_baseline", "pop", "base",
          "estimates.json"], .ok 7⟩ : PFile),
        ⟨["target", "criterion", "pop_loop_vs_baseline", "pop", "new",
          "estimates.json"], .bad "Expecting value: line 1 column 1 (char 0)"⟩] "base" ++
        popMatches [(⟨["target", "criterion", "pop_loop_vs_baseline", "pop", "base",
          "estimates.json"], .ok 7⟩ : PFile),
        ⟨["target", "criterion", "pop_loop_vs_baseline", "pop", "new",
          "estimates.json"], .bad "Expecting value: line 1 column 1 (char 0)"⟩] "new",
      ∃ e, f.content = .bad e ∧
        runComparator [(⟨["target", "criterion", "pop_loop_vs_baseline", "pop", "base",
            "estimates.json"], .ok 7⟩ : PFile),
          ⟨["target", "criterion", "pop_loop_vs_baseline", "pop", "new",
            "estimates.json"], .bad "Expecting value: line 1 column 1 (char 0)"⟩] =
          ⟨[], .error ("[bench] invalid JSON in " ++ joinSlash f.path ++ ": " ++ e)⟩) :=
  ⟨⟨⟨["target", "criterion", "pop_loop_vs_baseline", "pop", "new",
      "estimates.json"], .bad "Expecting value: line 1 column 1 (char 0)"⟩,
    by decide, rfl⟩,
    comparator_parse_failure_fatal _ (by decide) (by decide)
      ⟨⟨["target", "criterion", "pop_loop_vs_baseline", "pop", "new",
        "estimates.json"], .bad "Expecting value: line 1 column 1 (char 0)"⟩,
        by decide, rfl⟩⟩

/-- C7: For every baseline name for which zero result files match the pattern,
the Comparator exits with failure status and a message naming the missing
baseline and instructing the user to re-run with that baseline saved, without
attempting any arithmetic for the comparison: a missing `base` is reported
unconditionally (it is checked first), a missing `new` once the `base`
baseline has been found and summed; nothing is printed in either case. -/
theorem comparator_missing_baseline (files : List PFile) :
    (popMatches files "base" = [] →
      runComparator files =
        ⟨[], .error
          "[bench] no estimates for baseline 'base'. Did you run with --save-baseline base?"⟩) ∧
    (popMatches files "base" ≠ [] →
      (∀ f ∈ popMatches files "base", okFile f = true) →
      popMatches files "new" = [] →
      runComparator files =
        ⟨[], .error
          "[bench] no estimates for baseline 'new'. Did you run with --save-baseline new?"⟩) := by
  constructor
  · intro h
    unfold runComparator
    rw [sum_means_missing files "base" h]
    rfl
  · intro hne hok h
    unfold runComparator
    rw [sum_means_ok files "base" hne hok, sum_means_missing files "new" h]
    rfl

/-- Witness for C7: an empty tree (missing `base`), and a tree holding only a
`base` file (missing `new`). -/
theorem comparator_missing_baseline_witness :
    runComparator [] =
      ⟨[], .error
        "[bench] no estimates for baseline 'base'. Did you run with --save-baseline base?"⟩ ∧
    runComparator [(⟨["target", "criterion", "pop_loop_vs_baseline", "pop", "base",
        "estimates.json"], .ok 7⟩ : PFile)] =
      ⟨[], .error
        "[bench] no estimates for baseline 'new'. Did you run with --save-baseline new?"⟩ :=
  ⟨(comparator_missing_baseline []).1 rfl,
    (comparator_missing_baseline _).2 (by decide) (by decide) (by decide)⟩

end Gzset
